import Mathlib

/-!
Verification development for the hardcover-rss repository.

Shallow embedding of the acquisition-and-freshness pipeline:
the multi-strategy fetcher (src/app/scraper/hardcover.py), the canonical
models (src/app/scraper/models.py), the cache layer (src/app/utils/cache.py),
the RSS generator (src/app/feeds/generator.py) and the serving / refresh /
sweep logic (src/app/main.py).

Conventions:
  - Python floats are modelled as rationals (Rat); timestamps as Nat.
  - Fallible Python code returns Except String (the String is the exception
    text); a try/except block is a match on that Except.
  - Dynamically typed upstream JSON values are modelled by the PyVal type
    with Python attribute/subscript/truthiness semantics.
-/

/-- Book model (src/app/scraper/models.py lines 6-19). `id`, `title` and
`author` are required; every other field is optional. -/
structure Book where
  id : String
  title : String
  author : String
  cover_image_url : Option String := none
  description : Option String := none
  isbn : Option String := none
  published_year : Option Int := none
  page_count : Option Int := none
  average_rating : Option Rat := none
  date_added : Option Nat := none
  user_rating : Option Int := none
  user_review : Option String := none
deriving Repr, DecidableEq

/-- User model (src/app/scraper/models.py lines 22-28). `created_at`
defaults to datetime.now, modelled as the fixed timestamp 0. -/
structure User where
  id : String
  username : String
  display_name : String
  enabled : Bool := true
  created_at : Nat := 0
deriving Repr, DecidableEq

/-- UserBookList model (src/app/scraper/models.py lines 31-35).
`last_updated` defaults to datetime.now, modelled as the fixed timestamp 0. -/
structure UserBookList where
  user : User
  books : List Book
  last_updated : Nat := 0
deriving Repr, DecidableEq

/-- Dynamically typed Python/JSON value, as produced by json.loads. -/
inductive PyVal where
  | none
  | bool (b : Bool)
  | int (n : Int)
  | float (q : Rat)
  | str (s : String)
  | list (xs : List PyVal)
  | dict (xs : List (String × PyVal))

/-- Python truthiness: None, False, 0, 0.0, empty string/list/dict are falsy. -/
def PyVal.truthy : PyVal → Bool
  | .none => false
  | .bool b => b
  | .int n => n != 0
  | .float q => q != 0
  | .str s => !s.isEmpty
  | .list xs => !xs.isEmpty
  | .dict xs => !xs.isEmpty

/-- Key lookup in a dict value (first binding wins; Python dicts have unique keys). -/
def PyVal.find (v : PyVal) (k : String) : Option PyVal :=
  match v with
  | .dict xs =>
    match xs.find? (fun p => p.1 == k) with
    | some p => some p.2
    | Option.none => Option.none
  | _ => Option.none

/-- Python `d.get(k)`: returns None when the key is missing; raises
AttributeError when the receiver is not a dict. -/
def pyGet (v : PyVal) (k : String) : Except String PyVal :=
  match v with
  | .dict _ =>
    match v.find k with
    | some w => .ok w
    | Option.none => .ok .none
  | _ => .error "AttributeError: get"

/-- Python `d.get(k, default)`. -/
def pyGetD (v : PyVal) (k : String) (d : PyVal) : Except String PyVal :=
  match v with
  | .dict _ =>
    match v.find k with
    | some w => .ok w
    | Option.none => .ok d
  | _ => .error "AttributeError: get"

/-- Python subscript `d[k]`: KeyError when missing, TypeError when the
receiver is not subscriptable by a string. -/
def pyIndex (v : PyVal) (k : String) : Except String PyVal :=
  match v with
  | .dict _ =>
    match v.find k with
    | some w => .ok w
    | Option.none => .error "KeyError"
  | _ => .error "TypeError: not subscriptable"

/-- Python `k in v` for a string k: key test on dicts, membership on lists,
substring test on strings, TypeError otherwise. -/
def pyContains (k : String) (v : PyVal) : Except String Bool :=
  match v with
  | .dict xs => .ok (xs.any (fun p => p.1 == k))
  | .list xs => .ok (xs.any (fun w => match w with | .str s => s == k | _ => false))
  | .str s => .ok ((k.isPrefixOf s) || (s.splitOn k).length > 1)
  | _ => .error "TypeError: argument of type is not iterable"

/-- Python iteration `for x in v`: elements of a list, keys of a dict,
characters of a string, TypeError otherwise. -/
def pyIter : PyVal → Except String (List PyVal)
  | .list xs => .ok xs
  | .dict xs => .ok (xs.map (fun p => .str p.1))
  | .str s => .ok (s.toList.map (fun c => .str (String.singleton c)))
  | _ => .error "TypeError: not iterable"

/-- Python `str(v)`. str(None) is the literal string "None". Container
rendering is abbreviated (no claim depends on it). -/
def pyStr : PyVal → String
  | .none => "None"
  | .bool true => "True"
  | .bool false => "False"
  | .int n => toString n
  | .float q => toString q
  | .str s => s
  | .list _ => "<list>"
  | .dict _ => "<dict>"

/-- Digit test of a character list. -/
def allDigits : List Char → Bool
  | [] => true
  | c :: cs => c.isDigit && allDigits cs

/-- Value of a digit sequence. -/
def digitsVal (cs : List Char) : Nat :=
  cs.foldl (fun a c => a * 10 + (c.toNat - 48)) 0

/-- Split at the first decimal point: the part before it and, when one is
present, the part after it. -/
def splitDot : List Char → List Char × Option (List Char)
  | [] => ([], Option.none)
  | c :: cs =>
    if c = '.' then ([], some cs)
    else
      let (a, b) := splitDot cs
      (c :: a, b)

/-- Unsigned numeric body: digits with at most one decimal point; at least
one digit side must be non-empty (Python accepts "1." and ".5", not "."). -/
def parseUnsigned (cs : List Char) : Option Rat :=
  let (a, tail) := splitDot cs
  match tail with
  | Option.none =>
    if allDigits a && !a.isEmpty then some ((digitsVal a : Nat) : Rat)
    else Option.none
  | some b =>
    if b.any (fun c => c = '.') then Option.none
    else if allDigits a && allDigits b && !(a.isEmpty && b.isEmpty) then
      some (((digitsVal a : Nat) : Rat) +
        ((digitsVal b : Nat) : Rat) / ((10 : Rat) ^ b.length))
    else Option.none

/-- Numeric-string parsing for Python float(s): surrounding spaces stripped,
optional sign, digits with at most one decimal point (exponents, inf and
nan are not modelled; no claim uses them). Returns none when the text is
not numeric, e.g. for "N/A". -/
def parsePyFloatStr (s : String) : Option Rat :=
  let core := ((s.data.dropWhile (fun c => c = ' ')).reverse.dropWhile
    (fun c => c = ' ')).reverse
  match core with
  | '-' :: rest => (parseUnsigned rest).map (fun q => -q)
  | '+' :: rest => parseUnsigned rest
  | _ => parseUnsigned core

/-- Python `float(v)`: accepts numbers, booleans and numeric strings; raises
ValueError on a non-numeric string such as "N/A", TypeError otherwise. -/
def pyFloat : PyVal → Except String Rat
  | .bool b => .ok (if b then 1 else 0)
  | .int n => .ok (n : Rat)
  | .float q => .ok q
  | .str s =>
    match parsePyFloatStr s with
    | some q => .ok q
    | Option.none => .error "ValueError: could not convert string to float"
  | _ => .error "TypeError: float() argument"

/-- Pydantic validation of an Optional[str] field value. -/
def pyToOptStr : PyVal → Except String (Option String)
  | .none => .ok Option.none
  | .str s => .ok (some s)
  | _ => .error "ValidationError: str expected"

/-- Pydantic validation of an Optional[int] field value. -/
def pyToOptInt : PyVal → Except String (Option Int)
  | .none => .ok Option.none
  | .int n => .ok (some n)
  | _ => .error "ValidationError: int expected"

/-- Pydantic validation of a required str field value. -/
def pyToStr : PyVal → Except String String
  | .str s => .ok s
  | _ => .error "ValidationError: str expected"

/-- Resolution of the raw record (src/app/scraper/hardcover.py line 211):
`entry["book"] if isinstance(entry, dict) and "book" in entry else entry`. -/
def bookInfoOf (entry : PyVal) : PyVal :=
  match entry with
  | .dict xs =>
    match (PyVal.dict xs).find "book" with
    | some b => b
    | Option.none => entry
  | _ => entry

/-- Construction of one Book in the XHR strategy (src/app/scraper/hardcover.py
lines 210-226). Arguments are evaluated in source order, then the pydantic
model validates the fields; any exception (e.g. float("N/A") at line 221, or
an attribute access on a non-dict record) propagates to the strategy's
try/except. -/
def mkXhrBook (entry : PyVal) : Except String Book := do
  let book_info := bookInfoOf entry
  let rawId ← pyGet book_info "id"
  let rawTitle ← pyGetD book_info "title" (.str "")
  let rawAuthor ← pyGetD book_info "author" (.str "")
  let rawCoverCond ← pyGet book_info "cover"
  let rawCover ←
    if rawCoverCond.truthy then do
      let cov ← pyGetD book_info "cover" (.dict [])
      pyGet cov "url"
    else pure PyVal.none
  let rawDescription ← pyGet book_info "description"
  let rawIsbn ← pyGet book_info "isbn"
  let rawYear ← pyGet book_info "release_year"
  let rawPages ← pyGet book_info "pages"
  let rawRatingCond ← pyGet book_info "rating"
  let rating ←
    if rawRatingCond.truthy then do
      let rv ← pyIndex book_info "rating"
      let q ← pyFloat rv
      pure (some q)
    else pure Option.none
  let title ← pyToStr rawTitle
  let author ← pyToStr rawAuthor
  let cover ← pyToOptStr rawCover
  let description ← pyToOptStr rawDescription
  let isbn ← pyToOptStr rawIsbn
  let published_year ← pyToOptInt rawYear
  let page_count ← pyToOptInt rawPages
  pure { id := pyStr rawId, title := title, author := author,
         cover_image_url := cover, description := description, isbn := isbn,
         published_year := published_year, page_count := page_count,
         average_rating := rating, date_added := Option.none,
         user_rating := Option.none, user_review := Option.none }

/-- Probing of one letterbooks candidate (src/app/scraper/hardcover.py
lines 190-193 and 196-199): a dict with a "letterbooks" key yields that
value, a list yields itself, anything else leaves books_list as None. -/
def probeLetterbooks : PyVal → PyVal
  | .dict xs =>
    match (PyVal.dict xs).find "letterbooks" with
    | some w => w
    | Option.none => .none
  | .list xs => .list xs
  | _ => .none

/-- Location of the book collection in the decoded data-page object
(src/app/scraper/hardcover.py lines 186-199): under props.letterbooks or
under a top-level letterbooks key. Returns the books_list value
(PyVal.none when it stays None). -/
def xhrBooksList (data : PyVal) : Except String PyVal := do
  let hasProps ← pyContains "props" data
  if hasProps then do
    let props ← pyIndex data "props"
    let h2 ← pyContains "letterbooks" props
    if h2 then do
      let lb ← pyIndex props "letterbooks"
      pure (probeLetterbooks lb)
    else do
      let h3 ← pyContains "letterbooks" data
      if h3 then do
        let lb ← pyIndex data "letterbooks"
        pure (probeLetterbooks lb)
      else pure PyVal.none
  else do
    let h3 ← pyContains "letterbooks" data
    if h3 then do
      let lb ← pyIndex data "letterbooks"
      pure (probeLetterbooks lb)
    else pure PyVal.none

/-- XHR (page-scrape) strategy, src/app/scraper/hardcover.py lines 162-230.
The GET request, the data-page attribute extraction (regex, lines 166-182)
and the HTML-unescape + JSON decode (lines 183-185) are modelled by their
outcome `page`: ok (some data) when the page was retrieved with status 200
and carried a decodable data-page object, ok none when the status was not
200 or the attribute was missing, error when the request or the decode
raised. If the books list is missing or empty the strategy returns none
(lines 200-202); any exception while building the books is caught at
lines 228-230 and also yields none. -/
def fetch_user_want_to_read_xhr (username : String)
    (page : Except String (Option PyVal)) : Option UserBookList :=
  match page with
  | .error _ => Option.none
  | .ok Option.none => Option.none
  | .ok (some data) =>
    match (do
      let bl ← xhrBooksList data
      if !bl.truthy then pure Option.none
      else do
        let entries ← pyIter bl
        let books ← entries.mapM mkXhrBook
        pure (some { user := { id := username, username := username,
                               display_name := username },
                     books := books }) : Except String (Option UserBookList)) with
    | .ok r => r
    | .error _ => Option.none

/-- Construction of one Book in the GraphQL fallback (src/app/scraper/hardcover.py
lines 86-102): only id, title and description are populated; the author is
the empty string. -/
def mkGraphqlBook (user_book : PyVal) : Except String Book := do
  let book_data ← pyGetD user_book "book" (.dict [])
  let rawId ← pyGet book_data "id"
  let rawTitle ← pyGetD book_data "title" (.str "")
  let rawDescription ← pyGet book_data "description"
  let title ← pyToStr rawTitle
  let description ← pyToOptStr rawDescription
  pure { id := pyStr rawId, title := title, author := "",
         description := description }

/-- Python `v[0]`. -/
def pyFirst (v : PyVal) : Except String PyVal :=
  match v with
  | .list (x :: _) => .ok x
  | .list [] => .error "IndexError"
  | _ => .error "TypeError: not subscriptable"

/-- Outcome of the GraphQL POST (status code and decoded JSON body; the body
is an error when response.json() raises). -/
structure GqlResponse where
  status_code : Nat
  body : Except String PyVal

/-- Processing of the GraphQL response (src/app/scraper/hardcover.py
lines 60-105): non-200 status, an errors field, or an absent/empty users
list yield None; otherwise one Book per user_books entry, so a user with
zero user_books yields a UserBookList with an empty books list. In the
repository this code is unreachable (see HardcoverAPI.getattr_client). -/
def graphql_process (username : String) (resp : GqlResponse) : Option UserBookList :=
  if resp.status_code != 200 then Option.none
  else
    match (do
      let data ← resp.body
      let hasErrors ← pyContains "errors" data
      if hasErrors then pure Option.none
      else do
        let d ← pyGetD data "data" (.dict [])
        let users ← pyGetD d "users" (.list [])
        if !users.truthy then pure Option.none
        else do
          let user_data ← pyFirst users
          let user_books ← pyGetD user_data "user_books" (.list [])
          let entries ← pyIter user_books
          let books ← entries.mapM mkGraphqlBook
          pure (some { user := { id := username, username := username,
                                 display_name := username },
                       books := books }) : Except String (Option UserBookList)) with
    | .ok r => r
    | .error _ => Option.none

/-- Attributes assigned by HardcoverAPI.__init__ (src/app/scraper/hardcover.py
lines 14-20): api_url, api_token and the headers derived from them. No other
attribute is ever assigned to the object anywhere in the repository. -/
structure HardcoverAPI where
  api_url : String
  api_token : String

/-- Evaluation of `self.client` in the GraphQL fallback (src/app/scraper/hardcover.py
line 53). The attribute is never assigned (and neither is `self.graphql_url`),
so the access raises AttributeError unconditionally. -/
def HardcoverAPI.getattr_client (_ : HardcoverAPI) : Except String Unit :=
  .error "AttributeError: HardcoverAPI object has no attribute client"

/-- Top-level fetch (src/app/scraper/hardcover.py lines 22-109): the XHR
strategy is tried first; a truthy result (any UserBookList object) is
returned. Otherwise the GraphQL fallback body runs inside try/except: it
evaluates `self.client.post(self.graphql_url, ...)` (line 53), whose
attribute access raises (getattr_client), the exception is caught at
lines 107-109 and the fetch returns None — the prepared query and the
response processing (graphql_process) are never reached. -/
def get_user_want_to_read (api : HardcoverAPI) (username : String)
    (page : Except String (Option PyVal)) (gql : GqlResponse) : Option UserBookList :=
  match fetch_user_want_to_read_xhr username page with
  | some result => some result
  | Option.none =>
    match api.getattr_client with
    | .ok _ => graphql_process username gql
    | .error _ => Option.none

/-- Feed document the feedgen library renders for a feed with no entries
(src/app/feeds/generator.py lines 20-37 and 104): metadata built from the
display name and username; the XML layout is abbreviated (no claim depends
on the exact tag layout, which the spec leaves out of scope). -/
def rssShell (ubl : UserBookList) : String :=
  "<rss version=\"2.0\"><channel><title>" ++ ubl.user.display_name ++
  "s bookshelf: to-read</title><link>http://localhost:8000/feed/" ++
  ubl.user.username ++ "</link></channel></rss>"

/-- Body of RSSFeedGenerator.generate_feed inside its try
(src/app/feeds/generator.py lines 19-109). The feed-level metadata calls
succeed. For every book the entry loop first calls
_generate_book_description (line 50), which reads book.book_description
(line 126), and later reads book.author_name (line 72) and book.book_id
(line 83); the Book model (src/app/scraper/models.py) declares none of
these fields, so processing the first book raises AttributeError. An empty
books list skips the loop, reaches fg.rss_str (line 104) and yields the
document. -/
def generate_feed_body (ubl : UserBookList) : Except String String :=
  match ubl.books with
  | [] => .ok (rssShell ubl)
  | _ :: _ => .error "AttributeError: Book object has no attribute book_description"

/-- RSSFeedGenerator.generate_feed (src/app/feeds/generator.py lines 17-113):
the body runs inside try/except; any exception is logged (line 112) and the
empty string is returned (line 113), so the function is total. -/
def generate_feed (ubl : UserBookList) : String :=
  match generate_feed_body ubl with
  | .ok s => s
  | .error _ => ""

/-- Operations of the backing redis client, as used by the Cache class
(src/app/utils/cache.py); each may raise (connection errors and the like),
modelled as Except. -/
structure RedisOps where
  get : String → Except String (Option String)
  setex : String → Nat → String → Except String Unit

/-- Cache.get_book_list (src/app/utils/cache.py lines 53-62), on a connected
client (_ensure_connected): the store read and the JSON decode run inside
try/except; any exception is logged and None is returned. `decode` plays
json.loads. -/
def cache_get_book_list (r : RedisOps) (decode : String → Except String PyVal)
    (username : String) : Option PyVal :=
  match r.get ("books:" ++ username) with
  | .error _ => Option.none
  | .ok Option.none => Option.none
  | .ok (some s) =>
    match decode s with
    | .error _ => Option.none
    | .ok v => some v

/-- Cache.set_book_list (src/app/utils/cache.py lines 64-71), on a connected
client: setex with the TTL runs inside try/except; an exception is logged
at line 71 and not re-raised, so the call returns normally whether the
write succeeded or was dropped. -/
def cache_set_book_list (r : RedisOps) (username : String) (payload : String)
    (ttl : Nat := 1800) : Except String Unit :=
  match r.setex ("books:" ++ username) ttl payload with
  | .ok _ => .ok ()
  | .error _ => .ok ()

/-- Outcome of the external collaborators for one run: what
HardcoverAPI.get_user_info and HardcoverAPI.get_user_want_to_read return
for each username, and whether the redis backing store is reachable. -/
structure Env where
  user_info : String → Option User
  fetch : String → Option UserBookList
  storeUp : Bool

/-- Mutable state of the serving process: the in-memory users dict
(src/app/main.py line 32), the durable redis user: namespace and the
books: snapshot namespace (values decoded; a snapshot key whose TTL has
lapsed reads as absent, so presence means present and unexpired), and a
count of Fetcher invocations (calls to get_user_want_to_read). -/
structure ServerState where
  users : List (String × User)
  regStore : List (String × User)
  snapshots : List (String × UserBookList)
  fetchCount : Nat
deriving Repr, DecidableEq

/-- HTTPException outcomes the endpoints raise. -/
inductive HttpError where
  | notFound (detail : String)
  | serverError (detail : String)
deriving Repr, DecidableEq

/-- Modelled from the spec: CacheManager.get_user_book_list — the
CacheManager wrapper app/main.py imports is not among the repository's
files. The spec gives getSnapshot(id) -> BookList | absent, backed by
Cache.get_book_list (src/app/utils/cache.py lines 53-62), whose reads
return absent when the backing store is unreachable. -/
def cacheGetUserBookList (env : Env) (st : ServerState) (username : String) :
    Option UserBookList :=
  if env.storeUp then st.snapshots.lookup username else Option.none

/-- Modelled from the spec: CacheManager.set_user_book_list — not among the
repository's files. The spec gives putSnapshot(id, list, ttl), backed by
Cache.set_book_list (src/app/utils/cache.py lines 64-71), which drops the
write and only logs when the store is unreachable, so the state is left
unchanged and no error reaches the caller. -/
def cacheSetUserBookList (env : Env) (st : ServerState) (username : String)
    (l : UserBookList) : ServerState :=
  if env.storeUp then
    { st with snapshots :=
        (username, l) :: st.snapshots.filter (fun p => p.1 != username) }
  else st

/-- Fetch-and-cache tail of refresh_user_data (src/app/main.py lines 88-97):
get_user_want_to_read is invoked (counted); None raises a 404 before any
cache write; otherwise the list is cached and returned. -/
def refreshFetch (env : Env) (username : String) (st : ServerState) :
    ServerState × Except HttpError UserBookList :=
  let st1 := { st with fetchCount := st.fetchCount + 1 }
  match env.fetch username with
  | Option.none =>
    (st1, .error (.notFound ("No data found for user " ++ username)))
  | some l => (cacheSetUserBookList env st1 username l, .ok l)

/-- refresh_user_data (src/app/main.py lines 78-103): when the username is
not in the in-memory dict, get_user_info resolves it (404 when the upstream
does not know it) and the dict is updated; then the fetch-and-cache tail
runs. -/
def refresh_user_data (env : Env) (username : String) (st : ServerState) :
    ServerState × Except HttpError UserBookList :=
  match st.users.lookup username with
  | some _ => refreshFetch env username st
  | Option.none =>
    match env.user_info username with
    | Option.none =>
      (st, .error (.notFound ("User " ++ username ++ " not found")))
    | some u =>
      refreshFetch env username { st with users := (username, u) :: st.users }

/-- Response building of the feed endpoint (src/app/main.py lines 216-229):
an empty generator result raises a 500, otherwise the document is served. -/
def feed_response (l : UserBookList) : Except HttpError String :=
  let rss := generate_feed l
  if rss = "" then .error (.serverError "Error generating RSS feed")
  else .ok rss

/-- get_user_feed, the GET feed endpoint (src/app/main.py lines 201-235):
404 for an unregistered username; the cached snapshot is used when present,
otherwise refresh_user_data runs; the resulting list is rendered. -/
def get_user_feed (env : Env) (username : String) (st : ServerState) :
    ServerState × Except HttpError String :=
  if (st.users.lookup username).isNone then
    (st, .error (.notFound ("User " ++ username ++ " not found")))
  else
    match cacheGetUserBookList env st username with
    | some l => (st, feed_response l)
    | Option.none =>
      match refresh_user_data env username st with
      | (st1, .error e) => (st1, .error e)
      | (st1, .ok l) => (st1, feed_response l)

/-- remove_user, the DELETE users endpoint (src/app/main.py lines 184-198):
404 when not registered; otherwise the in-memory entry is deleted and the
cache invalidated. Modelled from the spec for the glue:
CacheManager.invalidate_user_cache is not among the repository's files; the
spec requires deleteRegistration to also delete any associated snapshot,
and Cache.remove_user (src/app/utils/cache.py lines 97-106) deletes both
the user: record and the books: snapshot (exceptions are logged, so nothing
is deleted when the store is down). -/
def remove_user (env : Env) (username : String) (st : ServerState) :
    ServerState × Except HttpError String :=
  if (st.users.lookup username).isNone then
    (st, .error (.notFound ("User " ++ username ++ " not found")))
  else
    let st1 := { st with users := st.users.filter (fun p => p.1 != username) }
    let st2 :=
      if env.storeUp then
        { st1 with
            regStore := st1.regStore.filter (fun p => p.1 != username),
            snapshots := st1.snapshots.filter (fun p => p.1 != username) }
      else st1
    (st2, .ok ("User " ++ username ++ " removed successfully"))

/-- Cache.get_all_users (src/app/utils/cache.py lines 73-85) at the serving
level: the usernames of the durable user: records (the same namespace
store_user_persistent writes), obtained by scanning keys and stripping the
prefix; the empty list when the store scan raises. -/
def get_all_users (env : Env) (st : ServerState) : List String :=
  if env.storeUp then st.regStore.map (fun p => p.1) else []

/-- Observable step of a sweep: one refresh_user_data call for a username,
or one asyncio.sleep for a number of seconds. -/
inductive SweepAction where
  | refreshAttempt (username : String)
  | sleep (seconds : Nat)
deriving Repr, DecidableEq

/-- Loop of refresh_all_users (src/app/main.py lines 110-116): for each
username, refresh_user_data runs inside try/except; after a successful
refresh asyncio.sleep(1) paces the loop, a failure is logged, skips the
sleep and does not halt the sweep. The second component is the trace of
refresh calls and sleeps. -/
def sweep_go (env : Env) :
    List String → ServerState → ServerState × List SweepAction
  | [], st => (st, [])
  | u :: us, st =>
    match refresh_user_data env u st with
    | (st1, .ok _) =>
      let (st2, tr) := sweep_go env us st1
      (st2, .refreshAttempt u :: .sleep 1 :: tr)
    | (st1, .error _) =>
      let (st2, tr) := sweep_go env us st1
      (st2, .refreshAttempt u :: tr)

/-- refresh_all_users (src/app/main.py lines 106-118): the sweep iterates
list(users.keys()) — the keys of the in-memory dict, not the durable
store. -/
def refresh_all_users (env : Env) (st : ServerState) :
    ServerState × List SweepAction :=
  sweep_go env (st.users.map (fun p => p.1)) st

/-- Trace shape of the sweep as amended: every username of the in-memory
dict in order, each refresh that succeeds (for an in-dict username, exactly
when the Fetcher returns a list) followed by a one-second sleep. -/
def sweepTracePattern (env : Env) : List String → List SweepAction
  | [] => []
  | u :: rest =>
    .refreshAttempt u ::
      ((if (env.fetch u).isSome then [SweepAction.sleep 1] else []) ++
        sweepTracePattern env rest)

/-- Position of one in-flight GET feed task between its await suspension
points, for a registered username on asyncio (src/app/main.py lines 209-214
and 88-97): readCache — about to await cache_manager.get_user_book_list;
doFetch — the cache read missed, about to await get_user_want_to_read
inside refresh_user_data; writeCache — the fetch returned, about to await
set_user_book_list; done — response computed from the carried list.
No lock is taken anywhere on this path. -/
inductive FeedTaskPC where
  | readCache
  | doFetch
  | writeCache
  | done (result : UserBookList)
deriving Repr, DecidableEq

/-- Shared event-loop state for one identity: the snapshot entry, the number
of Fetcher invocations so far, and every task's position. -/
structure CoState where
  cache : Option UserBookList
  fetchCount : Nat
  tasks : List FeedTaskPC
deriving Repr, DecidableEq

/-- One atomic section of task i (code between two awaits runs without
interleaving on the single-threaded event loop). `fetched` is the list the
upstream returns for this identity. Scheduling an out-of-range index or a
finished task changes nothing. -/
def coStep (fetched : UserBookList) (s : CoState) (i : Nat) : CoState :=
  match s.tasks.get? i with
  | some .readCache =>
    match s.cache with
    | some l => { s with tasks := s.tasks.set i (.done l) }
    | Option.none => { s with tasks := s.tasks.set i .doFetch }
  | some .doFetch =>
    { s with fetchCount := s.fetchCount + 1, tasks := s.tasks.set i .writeCache }
  | some .writeCache =>
    { s with cache := some fetched, tasks := s.tasks.set i (.done fetched) }
  | _ => s

/-- Run of a cooperative schedule: the listed task indices take their atomic
sections in that order. -/
def coRun (fetched : UserBookList) (s : CoState) (sched : List Nat) : CoState :=
  sched.foldl (coStep fetched) s

/-- Initial state for n concurrent feed requests on one identity whose
snapshot is expired or absent (the redis key has lapsed, so reads miss). -/
def coInit (n : Nat) : CoState :=
  { cache := Option.none, fetchCount := 0, tasks := List.replicate n .readCache }

/-- Fetch budget a task can still spend: one before its fetch section has
run, zero after. -/
def FeedTaskPC.fuel : FeedTaskPC → Nat
  | .readCache => 1
  | .doFetch => 1
  | .writeCache => 0
  | .done _ => 0

/-- Total remaining fetch budget of a task list. -/
def sumFuel : List FeedTaskPC → Nat
  | [] => 0
  | t :: ts => t.fuel + sumFuel ts

theorem sumFuel_set (ts : List FeedTaskPC) (i : Nat) (old t : FeedTaskPC)
    (h : ts.get? i = some old) :
    sumFuel (ts.set i t) + old.fuel = sumFuel ts + t.fuel := by
  induction ts generalizing i with
  | nil => simp at h
  | cons a ts ih =>
    cases i with
    | zero =>
      simp only [List.get?] at h
      cases h
      simp [List.set, sumFuel]
      omega
    | succ j =>
      simp only [List.get?] at h
      simp only [List.set, sumFuel]
      have := ih j h
      omega

theorem sumFuel_replicate (n : Nat) :
    sumFuel (List.replicate n .readCache) = n := by
  induction n with
  | zero => rfl
  | succ m ih => simp [List.replicate, sumFuel, ih, FeedTaskPC.fuel]; omega

theorem coStep_measure (fetched : UserBookList) (s : CoState) (i : Nat) :
    (coStep fetched s i).fetchCount + sumFuel (coStep fetched s i).tasks ≤
      s.fetchCount + sumFuel s.tasks := by
  unfold coStep
  cases hg : s.tasks.get? i with
  | none => simp
  | some pc =>
    cases pc with
    | readCache =>
      cases hc : s.cache with
      | none =>
        simp only
        have := sumFuel_set s.tasks i .readCache .doFetch hg
        simp [FeedTaskPC.fuel] at this
        omega
      | some l =>
        simp only
        have := sumFuel_set s.tasks i .readCache (.done l) hg
        simp [FeedTaskPC.fuel] at this
        omega
    | doFetch =>
      simp only
      have := sumFuel_set s.tasks i .doFetch .writeCache hg
      simp [FeedTaskPC.fuel] at this
      omega
    | writeCache =>
      simp only
      have := sumFuel_set s.tasks i .writeCache (.done fetched) hg
      simp [FeedTaskPC.fuel] at this
      omega
    | done l => simp

theorem coRun_measure (fetched : UserBookList) (sched : List Nat) (s : CoState) :
    (coRun fetched s sched).fetchCount + sumFuel (coRun fetched s sched).tasks ≤
      s.fetchCount + sumFuel s.tasks := by
  induction sched generalizing s with
  | nil => simp [coRun]
  | cons i sched ih =>
    have h1 := coStep_measure fetched s i
    have h2 := ih (coStep fetched s i)
    simp only [coRun, List.foldl] at h2 ⊢
    omega

theorem lookup_filter_self {β : Type} (u : String) (l : List (String × β)) :
    ((l.filter (fun p => p.1 != u)).lookup u) = Option.none := by
  induction l with
  | nil => rfl
  | cons p l ih =>
    obtain ⟨k, v⟩ := p
    by_cases h : k = u
    · simpa [List.filter_cons, h] using ih
    · have hb : (k != u) = true := by simp [h]
      have hk : (u == k) = false := by simp [beq_eq_false_iff_ne, Ne.symm h]
      simp [List.filter_cons, hb, List.lookup, hk, ih]

theorem lookup_isSome_of_mem_keys {β : Type} (l : List (String × β))
    (u : String) (h : u ∈ l.map (fun p => p.1)) :
    (l.lookup u).isSome = true := by
  induction l with
  | nil => simp at h
  | cons p l ih =>
    obtain ⟨k, v⟩ := p
    simp only [List.map_cons, List.mem_cons] at h
    by_cases hk : u = k
    · simp [List.lookup, hk]
    · have hmem : u ∈ l.map (fun p => p.1) := by
        cases h with
        | inl h1 => exact absurd h1 hk
        | inr h2 => exact h2
      have hkb : (u == k) = false := by simp [beq_eq_false_iff_ne, hk]
      simp [List.lookup, hkb, ih hmem]

theorem cacheSet_users (env : Env) (st : ServerState) (u : String)
    (l : UserBookList) : (cacheSetUserBookList env st u l).users = st.users := by
  unfold cacheSetUserBookList
  by_cases hs : env.storeUp <;> simp [hs]

theorem refreshFetch_users (env : Env) (u : String) (st : ServerState) :
    (refreshFetch env u st).1.users = st.users := by
  unfold refreshFetch
  cases hf : env.fetch u with
  | none => simp
  | some l => simp [cacheSet_users]

theorem refresh_registered (env : Env) (u : String) (st : ServerState)
    (h : (st.users.lookup u).isSome = true) :
    refresh_user_data env u st = refreshFetch env u st := by
  unfold refresh_user_data
  cases hl : st.users.lookup u with
  | none => rw [hl] at h; simp at h
  | some w => simp

theorem sweep_go_trace (env : Env) (us : List String) (st : ServerState)
    (h : ∀ u ∈ us, (st.users.lookup u).isSome = true) :
    (sweep_go env us st).2 = sweepTracePattern env us ∧
    (sweep_go env us st).1.users = st.users := by
  induction us generalizing st with
  | nil => exact ⟨rfl, rfl⟩
  | cons u us ih =>
    have hu : (st.users.lookup u).isSome = true := h u (List.mem_cons_self u us)
    have hrw := refresh_registered env u st hu
    cases hf : env.fetch u with
    | none =>
      have hfetch : refreshFetch env u st =
          ({ st with fetchCount := st.fetchCount + 1 },
            .error (.notFound ("No data found for user " ++ u))) := by
        unfold refreshFetch; rw [hf]
      have hih := ih { st with fetchCount := st.fetchCount + 1 }
        (fun w hw => h w (List.mem_cons_of_mem u hw))
      rcases hsg : sweep_go env us { st with fetchCount := st.fetchCount + 1 }
        with ⟨st2, tr⟩
      rw [hsg] at hih
      constructor
      · simp only [sweep_go, hrw, hfetch, hsg, sweepTracePattern, hf]
        simpa using hih.1
      · simp only [sweep_go, hrw, hfetch, hsg]
        simpa using hih.2
    | some l =>
      have hfetch : refreshFetch env u st =
          (cacheSetUserBookList env
            { st with fetchCount := st.fetchCount + 1 } u l, .ok l) := by
        unfold refreshFetch; rw [hf]
      have husers : (cacheSetUserBookList env
          { st with fetchCount := st.fetchCount + 1 } u l).users = st.users := by
        rw [cacheSet_users]
      have hih := ih (cacheSetUserBookList env
          { st with fetchCount := st.fetchCount + 1 } u l)
        (fun w hw => by rw [husers]; exact h w (List.mem_cons_of_mem u hw))
      rcases hsg : sweep_go env us (cacheSetUserBookList env
          { st with fetchCount := st.fetchCount + 1 } u l) with ⟨st2, tr⟩
      rw [hsg] at hih
      constructor
      · simp only [sweep_go, hrw, hfetch, hsg, sweepTracePattern, hf]
        simpa using hih.1
      · simp only [sweep_go, hrw, hfetch, hsg]
        rw [husers] at hih
        simpa using hih.2

/-- Sample book used by the concrete witnesses and counterexamples. -/
def bookA : Book := { id := "1", title := "Dune", author := "Frank Herbert" }

/-- Sample registered user. -/
def aliceUser : User := { id := "7", username := "alice", display_name := "alice" }

/-- Sample one-book list the upstream returns for alice. -/
def listA : UserBookList := { user := aliceUser, books := [bookA] }

/-- HardcoverAPI instance as __init__ builds it from settings. -/
def apiA : HardcoverAPI :=
  { api_url := "https://api.hardcover.app/v1/graphql", api_token := "token" }

/-- World where the store is reachable and the upstream knows alice. -/
def envUp : Env :=
  { user_info := fun _ => some aliceUser,
    fetch := fun u => if u = "alice" then some listA else Option.none,
    storeUp := true }

/-- Same world with the backing store unreachable. -/
def envDown : Env := { envUp with storeUp := false }

/-- Same world with the upstream fetch failing for everyone. -/
def envNoFetch : Env := { envUp with fetch := fun _ => Option.none }

/-- State where alice is registered in memory and durably, with a cached
unexpired snapshot. -/
def stHitA : ServerState :=
  { users := [("alice", aliceUser)], regStore := [("alice", aliceUser)],
    snapshots := [("alice", listA)], fetchCount := 0 }

/-- State where the durable store knows alice but the in-memory dict is
empty — the drift a process restart produces. -/
def stDrift : ServerState :=
  { users := [], regStore := [("alice", aliceUser)], snapshots := [],
    fetchCount := 0 }

/-- Data-page whose letterbooks list is empty: the primary strategy finds
zero books. -/
def pageZeroBooks : Except String (Option PyVal) :=
  .ok (some (.dict [("props", .dict [("letterbooks", .list [])])]))

/-- Well-formed zero-book answer the structured-query endpoint would give. -/
def gqlZeroBooks : GqlResponse :=
  { status_code := 200,
    body := .ok (.dict [("data", .dict [("users",
      .list [.dict [("id", .int 42), ("username", .str "alice"),
                    ("user_books", .list [])]])])]) }

/-- Data-page with one book whose rating field is the non-numeric string
the spec uses as its example. -/
def pageNARating : Except String (Option PyVal) :=
  .ok (some (.dict [("props", .dict [("letterbooks", .list [
    .dict [("id", .int 1), ("title", .str "Dune"),
           ("author", .str "Frank Herbert"), ("rating", .str "N/A")]])])]))

/-- Data-page with one book record that lacks an id field. -/
def pageNoId : Except String (Option PyVal) :=
  .ok (some (.dict [("props", .dict [("letterbooks", .list [
    .dict [("title", .str "Dune"), ("author", .str "")]])])]))

/-- Redis client whose every operation raises: the unreachable store. -/
def downOps : RedisOps :=
  { get := fun _ => .error "ConnectionError",
    setex := fun _ _ _ => .error "ConnectionError" }

/-- C1 counterexample: two concurrent feed requests on the same expired
identity, interleaved at their await suspension points (both read the
cache before either has fetched), invoke the Fetcher twice — not exactly
once as claimed — and both complete. -/
theorem c1_interleaved_two_fetches :
    (coRun listA (coInit 2) [0, 1, 0, 0, 1, 1]).fetchCount = 2 ∧
    (coRun listA (coInit 2) [0, 1, 0, 0, 1, 1]).tasks =
      [.done listA, .done listA] :=
  ⟨rfl, rfl⟩

/-- C1 (amended): the feed path takes no per-identity lock, so for N
concurrent requests on the same expired identity the number of Fetcher
invocations depends on the interleaving: it never exceeds N, a serialized
schedule of two requests fetches once, and a fully interleaved schedule
fetches twice; completing callers observe the fetched list. -/
theorem c1_fetch_per_interleaving :
    (∀ (fetched : UserBookList) (n : Nat) (sched : List Nat),
        (coRun fetched (coInit n) sched).fetchCount ≤ n) ∧
    (coRun listA (coInit 2) [0, 0, 0, 1]).fetchCount = 1 ∧
    (coRun listA (coInit 2) [0, 0, 0, 1]).tasks = [.done listA, .done listA] ∧
    (coRun listA (coInit 2) [0, 1, 0, 0, 1, 1]).fetchCount = 2 := by
  refine ⟨?_, rfl, rfl, rfl⟩
  intro fetched n sched
  have hm := coRun_measure fetched sched (coInit n)
  have hinit : (coInit n).fetchCount + sumFuel (coInit n).tasks = n := by
    simp only [coInit]
    rw [sumFuel_replicate]
    omega
  omega

/-- C2: for a registered identity whose snapshot is present — hence
unexpired, since a lapsed redis key reads as absent — and the store
reachable, the feed endpoint serves from the cached list and leaves the
whole state, the Fetcher invocation count included, unchanged. -/
theorem c2_cache_hit_serves_without_fetch (env : Env) (st : ServerState)
    (username : String) (uinfo : User) (l : UserBookList)
    (hreg : st.users.lookup username = some uinfo)
    (hup : env.storeUp = true)
    (hsnap : st.snapshots.lookup username = some l) :
    get_user_feed env username st = (st, feed_response l) := by
  simp [get_user_feed, cacheGetUserBookList, hreg, hup, hsnap]

/-- C2 witness: the cache-hit theorem at the concrete alice state. -/
theorem c2_cache_hit_witness :
    get_user_feed envUp "alice" stHitA = (stHitA, feed_response listA) :=
  c2_cache_hit_serves_without_fetch envUp stHitA "alice" aliceUser listA
    rfl rfl rfl

/-- C3 (code_bug evaluation): with the primary page-scrape strategy finding
zero books (empty letterbooks) and the structured-query endpoint ready to
answer with a well-formed zero-book response, the overall fetch returns
None without consulting that response: the fallback aborts on the
AttributeError for the never-assigned client attribute before issuing any
query. The unreachable response processing, had the query been issued,
would have returned a zero-book success rather than a failure. -/
theorem c3_fallback_dead_code_eval :
    get_user_want_to_read apiA "alice" pageZeroBooks gqlZeroBooks =
      Option.none ∧
    graphql_process "alice" gqlZeroBooks =
      some { user := { id := "alice", username := "alice",
                       display_name := "alice" }, books := [] } :=
  ⟨rfl, rfl⟩

/-- C4 counterexample: an upstream record whose rating field is the
non-numeric string the spec itself uses as its example makes the whole XHR
strategy return None — no Book with an absent rating is constructed,
contradicting the claim that non-numeric ratings never fail the
strategy. -/
theorem c4_nonnumeric_rating_fails_strategy :
    fetch_user_want_to_read_xhr "alice" pageNARating = Option.none := rfl

/-- C4 (amended): a missing rating key, and equally a Python-falsy rating
value such as an actual 0, yields a Book with average_rating none — a true
zero rating is not kept distinct from an absent one — while a truthy
non-numeric rating string raises inside the construction loop, so the
whole XHR strategy returns None and no Book is built. -/
theorem c4_rating_parse_amended :
    (∀ (i : Int) (t a : String),
        mkXhrBook (.dict [("id", .int i), ("title", .str t),
                          ("author", .str a)]) =
          .ok { id := toString i, title := t, author := a }) ∧
    (∀ (i : Int) (t a : String),
        mkXhrBook (.dict [("id", .int i), ("title", .str t),
                          ("author", .str a), ("rating", .int 0)]) =
          .ok { id := toString i, title := t, author := a }) ∧
    fetch_user_want_to_read_xhr "alice" pageNARating = Option.none :=
  ⟨fun _ _ _ => rfl, fun _ _ _ => rfl, rfl⟩

/-- C5: on a failed fetch, refresh_user_data writes nothing to the snapshot
cache — any existing, even expired, snapshot entry is left unchanged — and
returns the failure; conversely the snapshot namespace changes only when
the fetch succeeded with the very list returned to the caller. -/
theorem c5_failed_fetch_writes_nothing :
    (∀ (env : Env) (u : String) (st : ServerState),
        env.fetch u = Option.none →
        (refresh_user_data env u st).1.snapshots = st.snapshots ∧
        ∃ e, (refresh_user_data env u st).2 = Except.error e) ∧
    (∀ (env : Env) (u : String) (st : ServerState),
        (refresh_user_data env u st).1.snapshots ≠ st.snapshots →
        ∃ l, env.fetch u = some l ∧
          (refresh_user_data env u st).2 = Except.ok l) := by
  constructor
  · intro env u st hf
    cases hl : st.users.lookup u with
    | some w => simp [refresh_user_data, refreshFetch, hl, hf]
    | none =>
      cases hi : env.user_info u with
      | none => simp [refresh_user_data, hl, hi]
      | some uu => simp [refresh_user_data, refreshFetch, hl, hi, hf]
  · intro env u st hch
    cases hf : env.fetch u with
    | some l =>
      refine ⟨l, rfl, ?_⟩
      cases hl : st.users.lookup u with
      | some w => simp [refresh_user_data, refreshFetch, hl, hf]
      | none =>
        cases hi : env.user_info u with
        | none =>
          exfalso
          apply hch
          simp [refresh_user_data, hl, hi]
        | some uu => simp [refresh_user_data, refreshFetch, hl, hi, hf]
    | none =>
      exfalso
      apply hch
      cases hl : st.users.lookup u with
      | some w => simp [refresh_user_data, refreshFetch, hl, hf]
      | none =>
        cases hi : env.user_info u with
        | none => simp [refresh_user_data, hl, hi]
        | some uu => simp [refresh_user_data, refreshFetch, hl, hi, hf]

/-- C5 witness: the failed-fetch theorem at the concrete alice state. -/
theorem c5_failed_fetch_witness :
    (refresh_user_data envNoFetch "alice" stHitA).1.snapshots =
      stHitA.snapshots ∧
    ∃ e, (refresh_user_data envNoFetch "alice" stHitA).2 = Except.error e :=
  c5_failed_fetch_writes_nothing.1 envNoFetch "alice" stHitA rfl

/-- C6 counterexample: with the backing store unreachable (every operation
raising), the snapshot write returns normally — the exception is logged
and swallowed at src/app/utils/cache.py line 71, so no error is surfaced
to the caller, contradicting the claim — while the read does return
absent. -/
theorem c6_write_error_not_surfaced :
    cache_set_book_list downOps "alice" "payload" 1800 = Except.ok () ∧
    cache_get_book_list downOps (fun _ => .error "unreachable") "alice" =
      Option.none :=
  ⟨rfl, rfl⟩

/-- C6 (amended): when the backing store is unreachable, snapshot reads
return absent and snapshot writes are dropped with the error logged and
swallowed — the caller observes a normal return, no error is surfaced —
and the refresh path still succeeds with the freshly fetched list, leaving
the snapshot state untouched. -/
theorem c6_store_down_amended :
    (∀ (r : RedisOps) (dec : String → Except String PyVal) (u e : String),
        r.get ("books:" ++ u) = .error e →
        cache_get_book_list r dec u = Option.none) ∧
    (∀ (r : RedisOps) (u p e : String) (t : Nat),
        r.setex ("books:" ++ u) t p = .error e →
        cache_set_book_list r u p t = .ok ()) ∧
    (∀ (env : Env) (st : ServerState) (u : String) (uinfo : User)
        (l : UserBookList),
        env.storeUp = false → st.users.lookup u = some uinfo →
        env.fetch u = some l →
        refresh_user_data env u st =
          ({ st with fetchCount := st.fetchCount + 1 }, .ok l) ∧
        cacheGetUserBookList env st u = Option.none) := by
  refine ⟨?_, ?_, ?_⟩
  · intro r dec u e hg
    simp [cache_get_book_list, hg]
  · intro r u p e t hs
    simp [cache_set_book_list, hs]
  · intro env st u uinfo l hdown hreg hf
    constructor
    · simp [refresh_user_data, refreshFetch, cacheSetUserBookList, hreg, hf,
        hdown]
    · simp [cacheGetUserBookList, hdown]

/-- C6 witness: the store-down theorem at the concrete alice state. -/
theorem c6_store_down_witness :
    refresh_user_data envDown "alice" stHitA =
      ({ stHitA with fetchCount := stHitA.fetchCount + 1 }, .ok listA) ∧
    cacheGetUserBookList envDown stHitA "alice" = Option.none :=
  c6_store_down_amended.2.2 envDown stHitA "alice" aliceUser listA rfl rfl rfl

/-- C7: unregistering a registered identity (store reachable) removes the
in-memory entry, the durable registration record and the cached snapshot —
no orphaned snapshot remains — reports success, and a subsequent feed
request for that identity fails with not-found. -/
theorem c7_unregister_removes_all (env : Env) (st : ServerState)
    (u : String) (uinfo : User)
    (hup : env.storeUp = true)
    (hreg : st.users.lookup u = some uinfo) :
    (remove_user env u st).1.users.lookup u = Option.none ∧
    (remove_user env u st).1.regStore.lookup u = Option.none ∧
    (remove_user env u st).1.snapshots.lookup u = Option.none ∧
    (remove_user env u st).2 =
      Except.ok ("User " ++ u ++ " removed successfully") ∧
    (get_user_feed env u (remove_user env u st).1).2 =
      Except.error (.notFound ("User " ++ u ++ " not found")) := by
  have h1 : (remove_user env u st).1.users.lookup u = Option.none := by
    simp [remove_user, hreg, hup, lookup_filter_self]
  refine ⟨h1, ?_, ?_, ?_, ?_⟩
  · simp [remove_user, hreg, hup, lookup_filter_self]
  · simp [remove_user, hreg, hup, lookup_filter_self]
  · simp [remove_user, hreg, hup]
  · simp [get_user_feed, h1]

/-- C7 witness: the unregister theorem at the concrete alice state. -/
theorem c7_unregister_witness :
    (remove_user envUp "alice" stHitA).1.users.lookup "alice" =
      Option.none ∧
    (remove_user envUp "alice" stHitA).1.regStore.lookup "alice" =
      Option.none ∧
    (remove_user envUp "alice" stHitA).1.snapshots.lookup "alice" =
      Option.none ∧
    (remove_user envUp "alice" stHitA).2 =
      Except.ok ("User " ++ "alice" ++ " removed successfully") ∧
    (get_user_feed envUp "alice" (remove_user envUp "alice" stHitA).1).2 =
      Except.error (.notFound ("User " ++ "alice" ++ " not found")) :=
  c7_unregister_removes_all envUp stHitA "alice" aliceUser rfl rfl

/-- C8 counterexample: a state whose durable registration store holds alice
(listRegisteredIds returns her) but whose in-memory dict is empty — the
drift a process restart produces — sweeps nothing: the trace is empty and
the Fetcher is never invoked, although the upstream would have delivered
her list, contradicting the claim that every sweep enumerates
listRegisteredIds. -/
theorem c8_sweep_ignores_durable_store :
    get_all_users envUp stDrift = ["alice"] ∧
    (refresh_all_users envUp stDrift).2 = [] ∧
    (refresh_all_users envUp stDrift).1.fetchCount = 0 ∧
    (envUp.fetch "alice").isSome = true :=
  ⟨rfl, rfl, rfl, rfl⟩

/-- C8 (amended): every sweep enumerates the keys of the in-memory users
dict — not listRegisteredIds from the durable store, from which it can
drift — and calls the refresh for each key in order, pausing one second
after each successful refresh; a failed refresh is logged, skips the pause
and does not halt the sweep. -/
theorem c8_sweep_amended (env : Env) (st : ServerState) :
    (refresh_all_users env st).2 =
      sweepTracePattern env (st.users.map (fun p => p.1)) := by
  have h : ∀ u ∈ st.users.map (fun p => p.1),
      (st.users.lookup u).isSome = true :=
    fun u hu => lookup_isSome_of_mem_keys st.users u hu
  exact (sweep_go_trace env (st.users.map (fun p => p.1)) st h).1

/-- C9: generate_feed is total — any exception inside its body is caught
and becomes the empty string — and the feed endpoint maps an empty
generator result for a cached list to an explicit 500 error, never serving
it as a successful feed. -/
theorem c9_generator_errors_become_500 :
    (∀ (ubl : UserBookList) (e : String),
        generate_feed_body ubl = .error e → generate_feed ubl = "") ∧
    (∀ (env : Env) (st : ServerState) (u : String) (uinfo : User)
        (l : UserBookList),
        st.users.lookup u = some uinfo → env.storeUp = true →
        st.snapshots.lookup u = some l → generate_feed l = "" →
        get_user_feed env u st =
          (st, .error (.serverError "Error generating RSS feed"))) := by
  constructor
  · intro ubl e hb
    simp [generate_feed, hb]
  · intro env st u uinfo l hreg hup hsnap hgen
    simp [get_user_feed, cacheGetUserBookList, hreg, hup, hsnap,
      feed_response, hgen]

/-- C9 witness: the generator theorem at the concrete one-book list, whose
entry loop raises (the Book model has no book_description attribute), and
the endpoint theorem at the concrete alice state. -/
theorem c9_witness :
    generate_feed listA = "" ∧
    get_user_feed envUp "alice" stHitA =
      (stHitA, .error (.serverError "Error generating RSS feed")) :=
  ⟨c9_generator_errors_become_500.1 listA
      "AttributeError: Book object has no attribute book_description" rfl,
   c9_generator_errors_become_500.2 envUp stHitA "alice" aliceUser listA
      rfl rfl rfl rfl⟩

/-- C10: both strategy builders construct the book identifier with str() on
the raw id value, so a record lacking an id yields the literal string
"None" and is neither skipped nor fatal: the XHR builder and the GraphQL
builder both succeed on id-less records, and the XHR strategy returns the
one-book list whose book id is "None". -/
theorem c10_str_id_never_skips :
    (∀ (t a : String),
        mkXhrBook (.dict [("title", .str t), ("author", .str a)]) =
          .ok { id := "None", title := t, author := a }) ∧
    mkGraphqlBook (.dict []) =
      .ok { id := "None", title := "", author := "" } ∧
    fetch_user_want_to_read_xhr "alice" pageNoId =
      some { user := { id := "alice", username := "alice",
                       display_name := "alice" },
             books := [{ id := "None", title := "Dune", author := "" }] } :=
  ⟨fun _ _ => rfl, rfl, rfl⟩
